import Mathlib

/-!
Verification development for the foot-pressure sensor application.

The definitions below are a shallow embedding of the TypeScript sources:

* `src/src/utils/BLEManager.ts` — frame parsing (`handleCharacteristicValueChanged`),
  device discovery (`scanForDevices` / `getMockDevices`), connection
  (`connect` / `simulateConnection` / `isConnected`), data-collection control
  (`startDataCollection` / `stopDataCollection`) and the simulator
  (`simulateDataCollection`).
* the sole-screen component (`RightSoleScreen`) — the timed measurement
  session: `startMeasurement`, `stopMeasurement`, `completeTest`,
  `calculateAverages`, and the countdown interval callback.

Strings are modelled as `List Char`; notification payloads are assumed to be
valid UTF-8 text (the protocol is text based), so the byte length of the
original buffer equals the UTF-8 byte length of the decoded string.
JS numbers appearing here are integers small enough that IEEE doubles are
exact for every operation performed on them, so they are modelled as
`Nat` / `Int`.  Log timestamps and emoji prefixes of log strings are omitted.
-/

namespace FootPressure

/-! ## Frame parser (BLEManager.handleCharacteristicValueChanged) -/

/-- Whitespace test used by JS `String.prototype.trim` (ASCII subset; the
wire protocol payloads are ASCII). -/
def isJsSpace (c : Char) : Bool :=
  c = ' ' || c = '\t' || c = '\n' || c = '\r' || c = '\x0b' || c = '\x0c'

/-- Model of JS `String.prototype.trim` on a character list. -/
def jsTrim (s : List Char) : List Char :=
  ((s.dropWhile isJsSpace).reverse.dropWhile isJsSpace).reverse

/-- Numeric value of a list of decimal digit characters. -/
def digitsToNat (ds : List Char) : Nat :=
  ds.foldl (fun a c => 10 * a + (c.toNat - 48)) 0

/-- Model of JS `parseInt(s, 10)` on an already trimmed string: an optional
sign followed by the longest prefix of decimal digits; the result is `none`
(JS `NaN`) when that digit prefix is empty. -/
def jsParseInt : List Char → Option Int
  | '-' :: rest =>
    let ds := rest.takeWhile Char.isDigit
    if ds.isEmpty then none else some (-(digitsToNat ds : Int))
  | '+' :: rest =>
    let ds := rest.takeWhile Char.isDigit
    if ds.isEmpty then none else some ((digitsToNat ds : Int))
  | s =>
    let ds := s.takeWhile Char.isDigit
    if ds.isEmpty then none else some ((digitsToNat ds : Int))

/-- `Math.max(0, Math.min(255, n))`, as written in both the parser and the
simulator. -/
def clamp255 (n : Int) : Nat := (max 0 (min 255 n)).toNat

/-- One comma-separated entry to a pressure value: trim, `parseInt`, `NaN`
to `0`, clamp to `[0, 255]`. -/
def entryVal (e : List Char) : Nat :=
  match jsParseInt (jsTrim e) with
  | none => 0
  | some n => clamp255 n

/-- The `while (pressureValues.length < 8) pressureValues.push(0)` loop:
right-pad with zeros up to length 8. -/
def pad8 (l : List Nat) : List Nat := l ++ List.replicate (8 - l.length) 0

/-- Map the entries to values, keep only the first 8 (`slice(0, 8)`), then
right-pad with zeros. -/
def clampTo8 (entries : List (List Char)) : List Nat :=
  pad8 ((entries.map entryVal).take 8)

/-- Model of JS `String.prototype.split(',')`: splits at every comma; the
empty string yields `[""]`. -/
def splitComma : List Char → List (List Char)
  | [] => [[]]
  | c :: rest =>
    if c = ',' then [] :: splitComma rest
    else
      match splitComma rest with
      | [] => [[c]]
      | e :: es => (c :: e) :: es

/-- The characters of `"PRESSURE_LEFT:"`. -/
def leftTag : List Char := ['P', 'R', 'E', 'S', 'S', 'U', 'R', 'E', '_', 'L', 'E', 'F', 'T', ':']

/-- The characters of `"PRESSURE_RIGHT:"`. -/
def rightTag : List Char := ['P', 'R', 'E', 'S', 'S', 'U', 'R', 'E', '_', 'R', 'I', 'G', 'H', 'T', ':']

/-- Model of JS `String.prototype.includes(pat)`. -/
def containsSeq (pat : List Char) : List Char → Bool
  | [] => pat.isEmpty
  | c :: rest => pat.isPrefixOf (c :: rest) || containsSeq pat rest

/-- The guard `dataString.includes('PRESSURE_LEFT:') || dataString.includes('PRESSURE_RIGHT:')`. -/
def hasTag (s : List Char) : Bool := containsSeq leftTag s || containsSeq rightTag s

/-- Line terminators, which the JS regex `.` does not match. -/
def isLineTerm (c : Char) : Bool := c = '\n' || c = '\r'

/-- Does one of the two tags start at the head of `s`?  If so, return the
remainder after it (the alternatives differ at their tenth character, so at
most one can apply). -/
def stripTag (s : List Char) : Option (List Char) :=
  if leftTag.isPrefixOf s then some (s.drop leftTag.length)
  else if rightTag.isPrefixOf s then some (s.drop rightTag.length)
  else none

/-- Leftmost match of the regex `PRESSURE_(?:LEFT|RIGHT):(.+)`, returning
capture group 1: scan for the first position where a tag starts and is
followed by at least one non-line-terminator character; the group extends to
the next line terminator or the end of the string. -/
def tagMatch : List Char → Option (List Char)
  | [] => none
  | c :: rest =>
    match stripTag (c :: rest) with
    | some r =>
      let g := r.takeWhile (fun ch => !(isLineTerm ch))
      if g.isEmpty then tagMatch rest else some g
    | none => tagMatch rest

/-- UTF-8 encoding of one character; used to recover the byte view of the
notification buffer from the decoded text. -/
def utf8Enc (c : Char) : List Nat :=
  let n := c.toNat
  if n < 128 then [n]
  else if n < 2048 then [192 + n / 64, 128 + n % 64]
  else if n < 65536 then [224 + n / 4096, 128 + n / 64 % 64, 128 + n % 64]
  else [240 + n / 262144, 128 + n / 4096 % 64, 128 + n / 64 % 64, 128 + n % 64]

/-- The bytes of the notification buffer that decoded to `s`. -/
def utf8Bytes (s : List Char) : List Nat := (s.map utf8Enc).flatten

/-- Third decoding: `value.byteLength === 8`, one byte per channel, taken
verbatim (`Array.from(new Uint8Array(value.buffer))`). -/
def rawParse (s : List Char) : Option (List Nat) :=
  if (utf8Bytes s).length = 8 then some (utf8Bytes s) else none

/-- Second decoding: untagged CSV.  Requires a comma, maps/clamps entries,
keeps the first 8, and accepts only when at least 4 entries survived the
`slice`; otherwise falls through to the raw byte branch. -/
def csvParse (s : List Char) : Option (List Nat) :=
  if s.contains ',' then
    let vals := ((splitComma (jsTrim s)).map entryVal).take 8
    if 4 ≤ vals.length then some (pad8 vals) else rawParse s
  else rawParse s

/-- The pure decoding core of `handleCharacteristicValueChanged`: tagged
text first (when the tag guard and the regex succeed), then untagged CSV,
then the raw 8-byte vector; `none` is a parse failure. -/
def parsePayload (s : List Char) : Option (List Nat) :=
  if hasTag s then
    match tagMatch s with
    | some grp => some (clampTo8 (splitComma (jsTrim grp)))
    | none => csvParse s
  else csvParse s

example : parsePayload (("PRESSURE_LEFT:300,-5,10,abc,50,50,50,50").data) =
    some [255, 0, 10, 0, 50, 50, 50, 50] := by decide

example : parsePayload (("PRESSURE_RIGHT:1,2").data) =
    some [1, 2, 0, 0, 0, 0, 0, 0] := by decide

example : parsePayload (("a,b,c,d").data) = some [0, 0, 0, 0, 0, 0, 0, 0] := by decide

example : parsePayload (("1,2,3").data) = none := by decide

example : parsePayload (("12,34567").data) =
    some [49, 50, 44, 51, 52, 53, 54, 55] := by decide

/-! ## BLE manager (BLEManager.ts state and operations) -/

/-- A discovered peripheral: opaque id, name, and whether a gatt handle is
present (`null` for the mock devices). -/
structure Device where
  id : List Char
  name : List Char
  hasGatt : Bool
deriving DecidableEq

/-- `id.startsWith('demo-')`. -/
def isDemoId (id : List Char) : Bool :=
  (['d', 'e', 'm', 'o', '-'] : List Char).isPrefixOf id

/-- The mutable fields of the BLEManager instance that the claims concern. -/
structure BLEState where
  device : Option Device
  hasCharacteristic : Bool
  serverConnected : Bool
  isCollecting : Bool
  simActive : Bool
deriving DecidableEq

def initBLE : BLEState :=
  { device := none, hasCharacteristic := false, serverConnected := false,
    isCollecting := false, simActive := false }

/-- `getMockDevices()`: the sentinel demo device list. -/
def mockDevices : List Device :=
  [{ id := ("demo-esp32-left").data, name := ("ESP32-FootSensor-L").data, hasGatt := false },
   { id := ("demo-esp32-right").data, name := ("ESP32-FootSensor-R").data, hasGatt := false }]

def userCancelledPat : List Char := ("User cancelled").data

def cancelMsg : List Char := ("Device selection cancelled by user").data

def unsupportedMsg : List Char :=
  ("Web Bluetooth is not supported in this browser. Please use Chrome, Edge, or Opera.").data

/-- The TypeError raised by the fallback `navigator.bluetooth.requestDevice`
call when the platform has no `navigator.bluetooth` object. -/
def noBluetoothTypeError : List Char :=
  ("navigator.bluetooth is undefined").data

/-- `scanForDevices()`.  The environment is an oracle: whether the platform
supports Web Bluetooth and the outcomes of the filtered and of the
accept-all `requestDevice` calls (the latter two are only consulted when the
corresponding call actually runs). -/
def scanForDevices (supported : Bool) (primary fallback : Except (List Char) Device) :
    Except (List Char) (List Device) :=
  match (if supported then primary else .error unsupportedMsg :
      Except (List Char) Device) with
  | .ok d => .ok [d]
  | .error msg =>
    if containsSeq userCancelledPat msg then .error cancelMsg
    else
      match (if supported then fallback else .error noBluetoothTypeError :
          Except (List Char) Device) with
      | .ok d => .ok [d]
      | .error _ => .ok mockDevices

/-- The device `simulateConnection()` installs. -/
def demoDevice : Device :=
  { id := ("demo-device").data, name := ("Demo ESP32 Sensor").data, hasGatt := false }

/-- Which GATT step of the `connect` try-block fails, if any.  A failure at a
later step leaves the resources resolved by the earlier steps in place. -/
inductive GattOutcome
  | ok
  | failConnect (msg : List Char)
  | failService (msg : List Char)
  | failCharacteristic (msg : List Char)
  | failNotifications (msg : List Char)
deriving DecidableEq

/-- Observer events fired by the BLEManager. -/
inductive BLEEvent
  | connChange (connected : Bool)
  | raw (s : List Char)
deriving DecidableEq

def estMsg : List Char := ("ESP32 BLE connection established").data

def demoActMsg : List Char := ("Demo mode activated - simulated ESP32 data").data

def demoFallbackMsg : List Char := ("Using demo mode - ESP32 connection failed").data

def gattPat : List Char := ("GATT operation not permitted").data

def svcPat : List Char := ("Service not found").data

def charPat : List Char := ("Characteristic not found").data

def serviceUUID : List Char := ("12345678-1234-1234-1234-1234567890ab").data

def characteristicUUID : List Char := ("abcd1234-5678-90ab-cdef-1234567890ab").data

def errGattMsg : List Char :=
  ("Device connection failed. Make sure the ESP32 is advertising and not connected to another device.").data

def errSvcMsg : List Char :=
  ("ESP32 service not found. Please check that your ESP32 is running the correct firmware with service UUID: ").data
    ++ serviceUUID

def errCharMsg : List Char :=
  ("ESP32 characteristic not found. Please verify the characteristic UUID: ").data
    ++ characteristicUUID

/-- Result of a `connect` call: the state after it, the observer events it
fired, and the error it re-threw to the caller, if any. -/
structure ConnectResult where
  st : BLEState
  events : List BLEEvent
  thrown : Option (List Char)
deriving DecidableEq

/-- The catch block of `connect`: the three recognized message patterns are
re-thrown with a descriptive text; every other error falls back to demo mode
(`simulateConnection` plus the demo-fallback raw line). -/
def connectCatch (st : BLEState) (msg : List Char) : ConnectResult :=
  if containsSeq gattPat msg then { st := st, events := [], thrown := some errGattMsg }
  else if containsSeq svcPat msg then { st := st, events := [], thrown := some errSvcMsg }
  else if containsSeq charPat msg then { st := st, events := [], thrown := some errCharMsg }
  else
    { st := { st with device := some demoDevice },
      events := [.connChange true, .raw demoActMsg, .raw demoFallbackMsg],
      thrown := none }

/-- `connect(device)`.  `this.device = device` happens before the real/demo
branch; demo handles (no gatt, or a `demo-` id) take `simulateConnection`
directly; real handles run the GATT steps, whose outcome the oracle gives. -/
def connect (st0 : BLEState) (dev : Device) (gatt : GattOutcome) : ConnectResult :=
  let st1 := { st0 with device := some dev }
  if dev.hasGatt && !(isDemoId dev.id) then
    match gatt with
    | .ok =>
      { st := { st1 with serverConnected := true, hasCharacteristic := true },
        events := [.raw estMsg, .connChange true], thrown := none }
    | .failConnect msg => connectCatch st1 msg
    | .failService msg => connectCatch { st1 with serverConnected := true } msg
    | .failCharacteristic msg => connectCatch { st1 with serverConnected := true } msg
    | .failNotifications msg =>
      connectCatch { st1 with serverConnected := true, hasCharacteristic := true } msg
  else
    { st := { st1 with device := some demoDevice },
      events := [.connChange true, .raw demoActMsg, .connChange true], thrown := none }

/-- `isConnected()`: demo ids are always connected; otherwise report the
GATT server connection flag. -/
def isConnected (st : BLEState) : Bool :=
  match st.device with
  | some d => if isDemoId d.id then true else st.serverConnected
  | none => st.serverConnected

/-- The branch condition of `startDataCollection` choosing simulated data:
`!this.characteristic || this.device?.id?.startsWith('demo-')`. -/
def usesSimulator (st : BLEState) : Bool :=
  !st.hasCharacteristic ||
    (match st.device with
     | some d => isDemoId d.id
     | none => false)

def bleStartDataCollection (st : BLEState) : BLEState :=
  { st with isCollecting := true, simActive := usesSimulator st }

def bleStopDataCollection (st : BLEState) : BLEState :=
  { st with isCollecting := false, simActive := false }

/-- Raw log lines emitted by `startDataCollection` (the acknowledgement line
of the async START write depends on the write outcome and is omitted). -/
def bleStartEvents (st : BLEState) : List (List Char) :=
  ("Starting data collection...").data ::
    (if usesSimulator st then [("Simulating ESP32 pressure data...").data] else [])

/-! ## Simulator (BLEManager.simulateDataCollection) -/

def baseValues : List Nat := [50, 100, 150, 200, 250, 255, 128, 64]

/-- One simulator tick: each channel of the fixed baseline perturbed by its
own draw of `Math.floor(Math.random() * 40 - 20)` — an integer in
`[-20, 19]` — and re-clamped to `[0, 255]`. -/
def simSample (noise : List Int) : List Nat :=
  List.zipWith (fun b z => clamp255 (Int.ofNat b + z)) baseValues noise

/-- Decimal digit character. -/
def digitChar (n : Nat) : Char := Char.ofNat (48 + n)

/-- Decimal representation of a natural number (what JS number-to-string
produces for the integers appearing here); fuel-structured so that the
kernel can evaluate it. -/
def natToCharsAux : Nat → Nat → List Char
  | 0, _ => []
  | fuel + 1, n =>
    if n < 10 then [digitChar n]
    else natToCharsAux fuel (n / 10) ++ [digitChar (n % 10)]

def natToChars (n : Nat) : List Char := natToCharsAux (n + 1) n

/-- JS `Array.prototype.join(sep)`. -/
def joinWith (sep : List Char) : List (List Char) → List Char
  | [] => []
  | [e] => e
  | e :: es => e ++ sep ++ joinWith sep es

/-- `values.join(',')` for a pressure vector. -/
def joinVals (vs : List Nat) : List Char := joinWith [','] (vs.map natToChars)

/-- The simulator wire encoding: the template string
`PRESSURE_LEFT:` followed by the comma-joined values. -/
def simFrameText (vs : List Nat) : List Char := leftTag ++ joinVals vs

example : simSample (List.replicate 8 0) = baseValues := by decide

example : simFrameText [50, 100, 150, 200, 250, 255, 128, 64] =
    ("PRESSURE_LEFT:50,100,150,200,250,255,128,64").data := by decide

/-! ## Session controller (the sole-screen component) -/

/-- The component state the claims concern.  `timerActive` models whether
the countdown interval armed by `startMeasurement` is still installed. -/
structure SessionSt where
  bleConnected : Bool
  isRecording : Bool
  timeRemaining : Nat
  pressureData : List (List Nat)
  currentPressures : List Nat
  averagePressures : List Nat
  testCompleted : Bool
  maxPressurePoint : Nat × Nat
  averagePressure : Nat
  consoleLog : List (List Char)
  timerActive : Bool
  ble : BLEState
deriving DecidableEq

def initSession : SessionSt :=
  { bleConnected := false, isRecording := false, timeRemaining := 20,
    pressureData := [], currentPressures := List.replicate 8 0,
    averagePressures := List.replicate 8 0, testCompleted := false,
    maxPressurePoint := (0, 0), averagePressure := 0, consoleLog := [],
    timerActive := false, ble := initBLE }

/-- `Math.round(s / n)` for naturals, that is `floor(s/n + 1/2)`; the
doubles involved are exact in the ranges that occur. -/
def jsRound (s n : Nat) : Nat := (2 * s + n) / (2 * n)

/-- The accumulation loop of `calculateAverages`: `sums[i]` collects
`values[i]` over all samples (a missing index contributes nothing). -/
def channelSum (data : List (List Nat)) (i : Nat) : Nat :=
  (data.map (fun v => v.getD i 0)).sum

/-- `sums.map(sum => Math.round(sum / pressureData.length))`. -/
def calcAverages (data : List (List Nat)) : List Nat :=
  (List.range 8).map (fun i => jsRound (channelSum data i) data.length)

/-- `Math.max(...l)` for the (nonempty, nonnegative) averages list. -/
def listMax (l : List Nat) : Nat := l.foldl max 0

/-- JS `Array.prototype.indexOf`: index of the first occurrence. -/
def idxOf (a : Nat) : List Nat → Nat
  | [] => 0
  | b :: l => if b = a then 0 else idxOf a l + 1

def warningNoDataMsg : List Char :=
  ("[WARNING] No data collected during measurement").data

def completedMsg : List Char :=
  ("[INFO] Measurement completed. Calculating averages...").data

/-- The component `calculateAverages()`: per-channel rounded means, the
argmax channel, the overall rounded mean of the channel means, plus the four
summary log lines. -/
def calculateAverages (st : SessionSt) : SessionSt :=
  if st.pressureData.length = 0 then st
  else
    let averages := calcAverages st.pressureData
    let maxValue := listMax averages
    let maxIndex := idxOf maxValue averages
    let totalAverage := jsRound averages.sum averages.length
    { st with
      averagePressures := averages,
      maxPressurePoint := (maxIndex, maxValue),
      averagePressure := totalAverage,
      consoleLog := st.consoleLog ++
        [("[INFO] Processed ").data ++ natToChars st.pressureData.length ++ (" data points").data,
         ("[INFO] Average pressure: ").data ++ natToChars totalAverage ++ (" kPa").data,
         ("[INFO] Max pressure: P").data ++ natToChars (maxIndex + 1) ++ (" = ").data
           ++ natToChars maxValue ++ (" kPa").data,
         ("[INFO] Averaged pressure values: ").data
           ++ joinWith [',', ' '] (averages.map natToChars)] }

/-- `completeTest()`: with at least one sample, compute the averages and mark
the test completed; with none, only log the warning — `testCompleted`,
`isRecording`, the averages, and the collection flag are all left as they
were. -/
def completeTest (st : SessionSt) : SessionSt :=
  if 0 < st.pressureData.length then
    let st1 := calculateAverages st
    { st1 with testCompleted := true, consoleLog := st1.consoleLog ++ [completedMsg] }
  else
    { st with consoleLog := st.consoleLog ++ [warningNoDataMsg] }

def startLogMsgs : List (List Char) :=
  [("[INFO] Starting 20-second measurement...").data,
   ("[INFO] Please stand still on the pressure sensors").data,
   ("[INFO] ESP32 will send pressure data via BLE").data]

/-- `startMeasurement()`: refused without a connection; otherwise reset the
session fields, arm the 20-unit countdown and start data collection. -/
def startMeasurement (st : SessionSt) : SessionSt :=
  if st.bleConnected = false then st
  else
    { st with
      isRecording := true, testCompleted := false, pressureData := [],
      averagePressures := List.replicate 8 0,
      timeRemaining := 20, timerActive := true,
      consoleLog := st.consoleLog ++ startLogMsgs ++ bleStartEvents st.ble,
      ble := bleStartDataCollection st.ble }

/-- `stopMeasurement()`: clear the interval, leave `Recording`, stop data
collection, then run `completeTest` immediately. -/
def stopMeasurement (st : SessionSt) : SessionSt :=
  completeTest
    { st with
      timerActive := false, isRecording := false,
      consoleLog := st.consoleLog ++ [("Stopping data collection...").data],
      ble := bleStopDataCollection st.ble }

/-- One firing of the 1-second interval armed by `startMeasurement`:
decrement the remaining time; at (or below) one it pins the display to zero
and runs `completeTest`.  The interval itself is never cleared here, and
neither `isRecording` nor the collection flag is touched on this path. -/
def timerTick (st : SessionSt) : SessionSt :=
  if st.timerActive then
    if st.timeRemaining ≤ 1 then completeTest { st with timeRemaining := 0 }
    else { st with timeRemaining := st.timeRemaining - 1 }
  else st

/-- The `onDataReceived` callback of the sole screen: append the sample to
the session list, show it live, and log a PRESSURE line. -/
def handleDataReceived (st : SessionSt) (data : List Nat) : SessionSt :=
  { st with
    pressureData := st.pressureData ++ [data],
    currentPressures := data,
    consoleLog := st.consoleLog ++ [("PRESSURE_RIGHT: ").data ++ joinVals data] }

/-- Arrival of one notification payload: `handleCharacteristicValueChanged`
does nothing at all when `isCollecting` is false; otherwise it logs the raw
text, then either delivers the parsed sample or logs the
unrecognized-format line. -/
def notifyStep (st : SessionSt) (payload : List Char) : SessionSt :=
  if st.ble.isCollecting then
    let st1 := { st with consoleLog := st.consoleLog ++ [payload] }
    match parsePayload payload with
    | some vs => handleDataReceived st1 vs
    | none =>
      { st1 with consoleLog := st1.consoleLog ++
          [("Unrecognized data format: ").data ++ payload] }
  else st

example :
    calcAverages [[10, 20, 30, 40, 50, 60, 70, 80],
      [20, 30, 40, 50, 60, 70, 80, 90],
      [30, 40, 50, 60, 70, 80, 90, 100]] =
      [20, 30, 40, 50, 60, 70, 80, 90] := by decide

example : jsRound ([20, 30, 40, 50, 60, 70, 80, 90] : List Nat).sum 8 = 55 := by decide

example : idxOf (listMax [100, 100, 50, 50, 50, 50, 50, 50]) [100, 100, 50, 50, 50, 50, 50, 50] = 0 := by
  decide

/-- State of a sole screen whose BLE manager is linked to the demo device;
used below as a concrete session starting point. -/
def connectedIdle : SessionSt :=
  { initSession with
    bleConnected := true,
    ble := { initBLE with device := some demoDevice } }

/-- A concrete real-device handle (a gatt object, no `demo-` id). -/
def realDev : Device :=
  { id := ("esp32-0001").data, name := ("ESP32-FootSensor").data, hasGatt := true }

/-- Session after a start on the demo link and the arrival of the three
sample frames of the end-to-end test of the spec. -/
def c2Fed : SessionSt :=
  notifyStep (notifyStep (notifyStep (startMeasurement connectedIdle)
    (("PRESSURE_RIGHT:10,20,30,40,50,60,70,80").data))
    (("PRESSURE_RIGHT:20,30,40,50,60,70,80,90").data))
    (("PRESSURE_RIGHT:30,40,50,60,70,80,90,100").data)

/-- A session holding one sample whose channel averages tie at the maximum
on channels 0 and 1. -/
def tieSession : SessionSt :=
  { initSession with pressureData := [[100, 100, 50, 50, 50, 50, 50, 50]] }

/-! ## Helper lemmas about the parser -/

theorem isPrefixOf_append (t u : List Char) : t.isPrefixOf (t ++ u) = true :=
  List.isPrefixOf_iff_prefix.mpr (List.prefix_append t u)

theorem left_not_prefix_right (body : List Char) :
    leftTag.isPrefixOf (rightTag ++ body) = false := by
  simp [leftTag, rightTag, List.isPrefixOf]

theorem stripTag_left (body : List Char) : stripTag (leftTag ++ body) = some body := by
  unfold stripTag
  rw [isPrefixOf_append]
  simp [List.drop_left]

theorem stripTag_right (body : List Char) : stripTag (rightTag ++ body) = some body := by
  unfold stripTag
  rw [left_not_prefix_right, isPrefixOf_append]
  simp [List.drop_left]

theorem containsSeq_of_isPrefixOf (pat s : List Char) (h : pat.isPrefixOf s = true) :
    containsSeq pat s = true := by
  cases s with
  | nil =>
    cases pat with
    | nil => rfl
    | cons a l => simp [List.isPrefixOf] at h
  | cons c rest => simp [containsSeq, h]

theorem hasTag_left (body : List Char) : hasTag (leftTag ++ body) = true := by
  unfold hasTag
  rw [containsSeq_of_isPrefixOf _ _ (isPrefixOf_append leftTag body)]
  rfl

theorem hasTag_right (body : List Char) : hasTag (rightTag ++ body) = true := by
  unfold hasTag
  rw [containsSeq_of_isPrefixOf _ _ (isPrefixOf_append rightTag body)]
  simp

theorem takeWhile_eq_self (p : Char → Bool) (l : List Char) (h : ∀ c ∈ l, p c = true) :
    l.takeWhile p = l :=
  List.takeWhile_eq_self_iff.mpr h

theorem tagMatch_left (body : List Char) (hne : body ≠ [])
    (hlt : ∀ c ∈ body, isLineTerm c = false) :
    tagMatch (leftTag ++ body) = some body := by
  have hstrip : stripTag ('P' ::
      (['R', 'E', 'S', 'S', 'U', 'R', 'E', '_', 'L', 'E', 'F', 'T', ':'] ++ body)) = some body :=
    stripTag_left body
  have htw : body.takeWhile (fun ch => !(isLineTerm ch)) = body :=
    takeWhile_eq_self _ _ (fun c hc => by rw [hlt c hc]; rfl)
  show tagMatch ('P' ::
      (['R', 'E', 'S', 'S', 'U', 'R', 'E', '_', 'L', 'E', 'F', 'T', ':'] ++ body)) = some body
  rw [tagMatch, hstrip]
  simp only [htw]
  rw [if_neg (by simp [List.isEmpty_iff, hne])]

theorem tagMatch_right (body : List Char) (hne : body ≠ [])
    (hlt : ∀ c ∈ body, isLineTerm c = false) :
    tagMatch (rightTag ++ body) = some body := by
  have hstrip : stripTag ('P' ::
      (['R', 'E', 'S', 'S', 'U', 'R', 'E', '_', 'R', 'I', 'G', 'H', 'T', ':'] ++ body)) = some body :=
    stripTag_right body
  have htw : body.takeWhile (fun ch => !(isLineTerm ch)) = body :=
    takeWhile_eq_self _ _ (fun c hc => by rw [hlt c hc]; rfl)
  show tagMatch ('P' ::
      (['R', 'E', 'S', 'S', 'U', 'R', 'E', '_', 'R', 'I', 'G', 'H', 'T', ':'] ++ body)) = some body
  rw [tagMatch, hstrip]
  simp only [htw]
  rw [if_neg (by simp [List.isEmpty_iff, hne])]

/-- Tagged payloads with a nonempty, line-terminator-free tail decode through
the tagged-text branch of the parser. -/
theorem parse_tagged (tag body : List Char) (htag : tag = leftTag ∨ tag = rightTag)
    (hne : body ≠ []) (hlt : ∀ c ∈ body, isLineTerm c = false) :
    parsePayload (tag ++ body) = some (clampTo8 (splitComma (jsTrim body))) := by
  rcases htag with rfl | rfl
  · unfold parsePayload
    rw [hasTag_left, tagMatch_left body hne hlt]
    simp
  · unfold parsePayload
    rw [hasTag_right, tagMatch_right body hne hlt]
    simp

theorem dropWhile_eq_self (p : Char → Bool) (l : List Char) (h : ∀ c ∈ l, p c = false) :
    l.dropWhile p = l := by
  cases l with
  | nil => rfl
  | cons a l => simp [List.dropWhile, h a (List.mem_cons_self a l)]

theorem jsTrim_eq_self (l : List Char) (h : ∀ c ∈ l, isJsSpace c = false) : jsTrim l = l := by
  unfold jsTrim
  rw [dropWhile_eq_self _ _ h,
    dropWhile_eq_self _ _ (fun c hc => h c (List.mem_reverse.mp hc)), List.reverse_reverse]

theorem splitComma_no_comma (e : List Char) (he : (',') ∉ e) : splitComma e = [e] := by
  induction e with
  | nil => rfl
  | cons c e ih =>
    have hc : ¬(c = ',') := fun h => he (h ▸ List.mem_cons_self c e)
    have he2 : (',') ∉ e := fun h => he (List.mem_cons_of_mem c h)
    simp [splitComma, hc, ih he2]

theorem splitComma_append (e rest : List Char) (he : (',') ∉ e) :
    splitComma (e ++ ',' :: rest) = e :: splitComma rest := by
  induction e with
  | nil => simp [splitComma]
  | cons c e ih =>
    have hc : ¬(c = ',') := fun h => he (h ▸ List.mem_cons_self c e)
    have he2 : (',') ∉ e := fun h => he (List.mem_cons_of_mem c h)
    show splitComma (c :: (e ++ ',' :: rest)) = (c :: e) :: splitComma rest
    rw [splitComma, if_neg hc, ih he2]

theorem splitComma_joinWith (es : List (List Char)) (hne : es ≠ [])
    (h : ∀ e ∈ es, (',') ∉ e) :
    splitComma (joinWith [','] es) = es := by
  induction es with
  | nil => exact absurd rfl hne
  | cons e es ih =>
    cases es with
    | nil =>
      show splitComma e = [e]
      exact splitComma_no_comma e (h e (List.mem_cons_self e []))
    | cons e2 es2 =>
      have step : joinWith [','] (e :: e2 :: es2) = e ++ ',' :: joinWith [','] (e2 :: es2) := by
        show e ++ [','] ++ joinWith [','] (e2 :: es2) = e ++ ',' :: joinWith [','] (e2 :: es2)
        simp
      rw [step, splitComma_append e _ (h e (List.mem_cons_self e _)),
        ih (by simp) (fun x hx => h x (List.mem_cons_of_mem e hx))]

theorem mem_joinWith_comma (es : List (List Char)) (c : Char)
    (hc : c ∈ joinWith [','] es) : c = ',' ∨ ∃ e ∈ es, c ∈ e := by
  induction es with
  | nil => cases hc
  | cons e es ih =>
    cases es with
    | nil =>
      right
      exact ⟨e, List.mem_cons_self e [], hc⟩
    | cons e2 es2 =>
      have step : joinWith [','] (e :: e2 :: es2) = e ++ ',' :: joinWith [','] (e2 :: es2) := by
        show e ++ [','] ++ joinWith [','] (e2 :: es2) = e ++ ',' :: joinWith [','] (e2 :: es2)
        simp
      rw [step] at hc
      rcases List.mem_append.mp hc with h1 | h2
      · exact Or.inr ⟨e, List.mem_cons_self e _, h1⟩
      · rcases List.mem_cons.mp h2 with rfl | h3
        · exact Or.inl rfl
        · rcases ih h3 with h4 | ⟨x, hx, hcx⟩
          · exact Or.inl h4
          · exact Or.inr ⟨x, List.mem_cons_of_mem e hx, hcx⟩

theorem pad8_length (l : List Nat) (h : l.length ≤ 8) : (pad8 l).length = 8 := by
  simp [pad8]
  omega

/-! ## Helper lemmas about the simulator encoding -/

set_option maxRecDepth 8192 in
theorem natToChars_props : ∀ n : Nat, n < 256 →
    natToChars n ≠ [] ∧ (',') ∉ natToChars n ∧
    (∀ c ∈ natToChars n, isLineTerm c = false) ∧
    (∀ c ∈ natToChars n, isJsSpace c = false) := by decide

set_option maxRecDepth 8192 in
theorem entryVal_natToChars : ∀ n : Nat, n < 256 → entryVal (natToChars n) = n := by decide

theorem clamp255_le (n : Int) : clamp255 n ≤ 255 := by
  have h1 : max 0 (min 255 n) ≤ 255 := max_le (by norm_num) (min_le_left 255 n)
  unfold clamp255
  omega

theorem mem_simSample_le (noise : List Int) (v : Nat) (hv : v ∈ simSample noise) : v ≤ 255 := by
  unfold simSample at hv
  generalize baseValues = l1 at hv
  induction l1 generalizing noise with
  | nil => cases hv
  | cons b l ih =>
    cases noise with
    | nil => cases hv
    | cons z l2 =>
      rw [List.zipWith_cons_cons] at hv
      rcases List.mem_cons.mp hv with rfl | h
      · exact clamp255_le _
      · exact ih l2 h

theorem simSample_length (noise : List Int) (h : noise.length = 8) :
    (simSample noise).length = 8 := by
  unfold simSample
  rw [List.length_zipWith, h]
  rfl

theorem joinWith_ne_nil (sep : List Char) (es : List (List Char)) (hne : es ≠ [])
    (h : ∀ e ∈ es, e ≠ []) : joinWith sep es ≠ [] := by
  cases es with
  | nil => exact absurd rfl hne
  | cons e es =>
    cases es with
    | nil => exact h e (List.mem_cons_self e [])
    | cons e2 es2 =>
      show e ++ sep ++ joinWith sep (e2 :: es2) ≠ []
      intro hcontra
      rcases List.append_eq_nil.mp hcontra with ⟨h1, _⟩
      exact h e (List.mem_cons_self e _) (List.append_eq_nil.mp h1).1

/-- Round trip at the parser boundary: any 8-vector of byte-ranged values,
encoded the way the simulator encodes its frames, decodes back to itself. -/
theorem parse_simFrame (vs : List Nat) (hlen : vs.length = 8) (hv : ∀ v ∈ vs, v ≤ 255) :
    parsePayload (simFrameText vs) = some vs := by
  have hbound : ∀ v ∈ vs, v < 256 := fun v h => Nat.lt_succ_of_le (hv v h)
  have hesne : vs.map natToChars ≠ [] := by
    intro hcontra
    rw [List.map_eq_nil_iff] at hcontra
    rw [hcontra] at hlen
    simp at hlen
  have hprops : ∀ e ∈ vs.map natToChars, e ≠ [] ∧ (',') ∉ e ∧
      (∀ c ∈ e, isLineTerm c = false) ∧ (∀ c ∈ e, isJsSpace c = false) := by
    intro e he
    rcases List.mem_map.mp he with ⟨v, hvmem, rfl⟩
    exact natToChars_props v (hbound v hvmem)
  have hbody_ne : joinWith [','] (vs.map natToChars) ≠ [] :=
    joinWith_ne_nil _ _ hesne (fun e he => (hprops e he).1)
  have hbody_lt : ∀ c ∈ joinWith [','] (vs.map natToChars), isLineTerm c = false := by
    intro c hc
    rcases mem_joinWith_comma _ c hc with rfl | ⟨e, he, hce⟩
    · rfl
    · exact (hprops e he).2.2.1 c hce
  have hbody_sp : ∀ c ∈ joinWith [','] (vs.map natToChars), isJsSpace c = false := by
    intro c hc
    rcases mem_joinWith_comma _ c hc with rfl | ⟨e, he, hce⟩
    · rfl
    · exact (hprops e he).2.2.2 c hce
  have hsplit : splitComma (joinWith [','] (vs.map natToChars)) = vs.map natToChars :=
    splitComma_joinWith _ hesne (fun e he => (hprops e he).2.1)
  have hmain := parse_tagged leftTag (joinWith [','] (vs.map natToChars)) (Or.inl rfl)
    hbody_ne hbody_lt
  rw [jsTrim_eq_self _ hbody_sp, hsplit] at hmain
  have hvals : (vs.map natToChars).map entryVal = vs := by
    rw [List.map_map]
    have : ∀ v ∈ vs, (entryVal ∘ natToChars) v = id v := by
      intro v hvm
      exact entryVal_natToChars v (hbound v hvm)
    rw [List.map_congr_left this, List.map_id]
  have hc8 : clampTo8 (vs.map natToChars) = vs := by
    unfold clampTo8
    rw [hvals, List.take_of_length_le (le_of_eq hlen)]
    unfold pad8
    rw [hlen]
    simp
  show parsePayload (leftTag ++ joinWith [','] (vs.map natToChars)) = some vs
  rw [hmain, hc8]

/-! ## Helper lemmas about the session arithmetic -/

/-- The integer `Math.round` of the code equals the mathematical
round-half-up of the exact rational mean. -/
theorem jsRound_eq_round (s n : Nat) (hn : 0 < n) :
    (jsRound s n : ℤ) = round ((s : ℚ) / (n : ℚ)) := by
  have hne : (n : ℚ) ≠ 0 := Nat.cast_ne_zero.mpr (Nat.pos_iff_ne_zero.mp hn)
  rw [round_eq]
  have key : (s : ℚ) / (n : ℚ) + 1 / 2 = ((2 * s + n : ℕ) : ℚ) / ((2 * n : ℕ) : ℚ) := by
    push_cast
    field_simp
    ring
  rw [key, Rat.floor_natCast_div_natCast]
  rfl

theorem le_foldl_max (l : List Nat) (a : Nat) : a ≤ l.foldl max a := by
  induction l generalizing a with
  | nil => exact le_refl a
  | cons b l ih => exact le_trans (le_max_left a b) (ih (max a b))

theorem mem_le_foldl_max (l : List Nat) : ∀ a x, x ∈ l → x ≤ l.foldl max a := by
  induction l with
  | nil => intro a x hx; cases hx
  | cons b l ih =>
    intro a x hx
    rcases List.mem_cons.mp hx with rfl | h
    · exact le_trans (le_max_right a x) (le_foldl_max l (max a x))
    · exact ih (max a b) x h

theorem foldl_max_mem (l : List Nat) : ∀ a, l.foldl max a = a ∨ l.foldl max a ∈ l := by
  induction l with
  | nil => intro a; exact Or.inl rfl
  | cons b l ih =>
    intro a
    show l.foldl max (max a b) = a ∨ l.foldl max (max a b) ∈ b :: l
    rcases ih (max a b) with h | h
    · rcases max_choice a b with hab | hab
      · exact Or.inl (h.trans hab)
      · right
        rw [h.trans hab]
        exact List.mem_cons_self b l
    · exact Or.inr (List.mem_cons_of_mem b h)

theorem listMax_mem (l : List Nat) (h : l ≠ []) : listMax l ∈ l := by
  cases l with
  | nil => exact absurd rfl h
  | cons b l =>
    show List.foldl max 0 (b :: l) ∈ b :: l
    have h0 : List.foldl max 0 (b :: l) = List.foldl max b l := by
      show List.foldl max (max 0 b) l = List.foldl max b l
      rw [Nat.zero_max]
    rw [h0]
    rcases foldl_max_mem l b with h1 | h1
    · rw [h1]
      exact List.mem_cons_self b l
    · exact List.mem_cons_of_mem b h1

theorem listMax_ge (l : List Nat) (x : Nat) (hx : x ∈ l) : x ≤ listMax l :=
  mem_le_foldl_max l 0 x hx

/-- `idxOf` returns the position of the first occurrence. -/
theorem idxOf_spec (l : List Nat) (a : Nat) (h : a ∈ l) :
    idxOf a l < l.length ∧ l.getD (idxOf a l) 0 = a ∧
      ∀ j, j < idxOf a l → l.getD j 0 ≠ a := by
  induction l with
  | nil => cases h
  | cons b l ih =>
    by_cases hb : b = a
    · subst hb
      refine ⟨by simp [idxOf], by simp [idxOf], ?_⟩
      intro j hj
      simp [idxOf] at hj
    · have hmem : a ∈ l := by
        rcases List.mem_cons.mp h with hba | hm
        · exact absurd hba.symm hb
        · exact hm
      obtain ⟨ih1, ih2, ih3⟩ := ih hmem
      have hidx : idxOf a (b :: l) = idxOf a l + 1 := by simp [idxOf, hb]
      refine ⟨?_, ?_, ?_⟩
      · rw [hidx]
        simpa using Nat.succ_lt_succ ih1
      · rw [hidx]
        simpa using ih2
      · intro j hj
        rw [hidx] at hj
        cases j with
        | zero => simpa using hb
        | succ j => simpa using ih3 j (Nat.lt_of_succ_lt_succ hj)

theorem calcAverages_length (d : List (List Nat)) : (calcAverages d).length = 8 := by
  simp [calcAverages]

theorem calcAverages_getD (d : List (List Nat)) (i : Nat) (h : i < 8) :
    (calcAverages d).getD i 0 = jsRound (channelSum d i) d.length := by
  unfold calcAverages
  rw [List.getD_eq_getElem _ _ (by simpa using h)]
  simp [h]

/-! ## Claim theorems -/

/-- C1: a payload that is one of the two PRESSURE_ tags followed by a
comma-separated entry list parses to exactly the entry values in order —
a non-numeric entry (parseInt NaN) maps to 0, a numeric one is clamped to
[0, 255] — with only the first 8 entries kept and the result right-padded
with 0 to length exactly 8. -/
theorem claim1_tagged_parse (tag : List Char) (es : List (List Char))
    (htag : tag = leftTag ∨ tag = rightTag)
    (hcomma : ∀ e ∈ es, (',') ∉ e)
    (hlt : ∀ e ∈ es, ∀ c ∈ e, isLineTerm c = false)
    (hne : es ≠ [])
    (hbody : joinWith [','] es ≠ [])
    (htrim : jsTrim (joinWith [','] es) = joinWith [','] es) :
    parsePayload (tag ++ joinWith [','] es) = some (pad8 ((es.map entryVal).take 8)) ∧
    (pad8 ((es.map entryVal).take 8)).length = 8 ∧
    (∀ e ∈ es, jsParseInt (jsTrim e) = none → entryVal e = 0) ∧
    (∀ e ∈ es, ∀ n, jsParseInt (jsTrim e) = some n → entryVal e = clamp255 n) := by
  have hblt : ∀ c ∈ joinWith [','] es, isLineTerm c = false := by
    intro c hc
    rcases mem_joinWith_comma es c hc with rfl | ⟨e, he, hce⟩
    · rfl
    · exact hlt e he c hce
  have hmain := parse_tagged tag _ htag hbody hblt
  rw [htrim, splitComma_joinWith es hne hcomma] at hmain
  refine ⟨hmain, pad8_length _ (List.length_take_le 8 _), ?_, ?_⟩
  · intro e _ hn
    simp [entryVal, hn]
  · intro e _ n hn
    simp [entryVal, hn]

/-- Witness for C1 at the example payload of the claim. -/
theorem claim1_witness :
    parsePayload (("PRESSURE_LEFT:300,-5,10,abc,50,50,50,50").data) =
      some [255, 0, 10, 0, 50, 50, 50, 50] := by
  have h := (claim1_tagged_parse leftTag
    [("300").data, ("-5").data, ("10").data, ("abc").data,
     ("50").data, ("50").data, ("50").data, ("50").data]
    (Or.inl rfl) (by decide) (by decide) (by decide) (by decide) (by decide)).1
  have e1 : leftTag ++ joinWith [','] [("300").data, ("-5").data, ("10").data, ("abc").data,
      ("50").data, ("50").data, ("50").data, ("50").data] =
      ("PRESSURE_LEFT:300,-5,10,abc,50,50,50,50").data := by decide
  have e2 : pad8 (([("300").data, ("-5").data, ("10").data, ("abc").data,
      ("50").data, ("50").data, ("50").data, ("50").data].map entryVal).take 8) =
      [255, 0, 10, 0, 50, 50, 50, 50] := by decide
  rw [e1, e2] at h
  exact h

/-- C4 counterexample: the untagged payload `a,b,c,d` has zero valid numeric
entries, yet the CSV branch accepts it as the all-zero sample instead of a
parse failure — the threshold counts split entries, not numeric ones. -/
theorem claim4_counterexample :
    parsePayload (("a,b,c,d").data) = some [0, 0, 0, 0, 0, 0, 0, 0] ∧
    ((splitComma (jsTrim (("a,b,c,d").data))).map
        (fun e => jsParseInt (jsTrim e))).all (fun r => r.isNone) = true := by
  decide

/-- C4 amended: the untagged CSV branch accepts a comma-containing untagged
payload exactly when the comma-split of its trimmed text has at least 4
entries (numeric or not); with fewer entries — and a byte length other
than 8, which would instead hit the raw branch — the payload is a parse
failure. -/
theorem claim4_csv_threshold (s : List Char)
    (htag : hasTag s = false) (hcomma : s.contains ',' = true) :
    (4 ≤ (splitComma (jsTrim s)).length →
      parsePayload s = some (pad8 (((splitComma (jsTrim s)).map entryVal).take 8))) ∧
    ((splitComma (jsTrim s)).length < 4 → (utf8Bytes s).length ≠ 8 →
      parsePayload s = none) := by
  have hp : parsePayload s = csvParse s := by
    unfold parsePayload
    rw [htag]
    simp
  constructor
  · intro h4
    rw [hp]
    unfold csvParse
    rw [hcomma]
    have hlen : 4 ≤ (((splitComma (jsTrim s)).map entryVal).take 8).length := by
      rw [List.length_take, List.length_map]
      omega
    simp only [if_true, hlen, if_pos]
  · intro hlt hbytes
    rw [hp]
    unfold csvParse rawParse
    rw [hcomma]
    have hlen : ¬(4 ≤ (((splitComma (jsTrim s)).map entryVal).take 8).length) := by
      rw [List.length_take, List.length_map]
      omega
    simp only [if_true, hlen, if_neg, if_false, hbytes]

/-- Witness for C4 (amended) on a short numeric CSV payload. -/
theorem claim4_witness :
    parsePayload (("1,2,3,4").data) = some [1, 2, 3, 4, 0, 0, 0, 0] := by
  have h := (claim4_csv_threshold (("1,2,3,4").data) (by decide) (by decide)).1 (by decide)
  rw [h]
  decide

/-- C10: a notification payload arriving while `isCollecting` is false is
discarded whole: no sample is produced, no raw event is logged, and the
sample list, live display and log stream are unchanged. -/
theorem claim10_ignored_when_not_collecting (st : SessionSt) (payload : List Char)
    (h : st.ble.isCollecting = false) :
    notifyStep st payload = st ∧
    (notifyStep st payload).pressureData = st.pressureData ∧
    (notifyStep st payload).currentPressures = st.currentPressures ∧
    (notifyStep st payload).consoleLog = st.consoleLog := by
  have h0 : notifyStep st payload = st := by
    unfold notifyStep
    rw [h]
    simp
  exact ⟨h0, by rw [h0], by rw [h0], by rw [h0]⟩

/-- Witness for C10 on the idle initial state. -/
theorem claim10_witness :
    notifyStep initSession (("PRESSURE_LEFT:1,2,3,4,5,6,7,8").data) = initSession ∧
    (notifyStep initSession (("PRESSURE_LEFT:1,2,3,4,5,6,7,8").data)).pressureData =
      initSession.pressureData ∧
    (notifyStep initSession (("PRESSURE_LEFT:1,2,3,4,5,6,7,8").data)).currentPressures =
      initSession.currentPressures ∧
    (notifyStep initSession (("PRESSURE_LEFT:1,2,3,4,5,6,7,8").data)).consoleLog =
      initSession.consoleLog :=
  claim10_ignored_when_not_collecting initSession _ (by decide)

/-- C2: with at least one collected sample, `completeTest` marks the test
completed and computes: as each channel average, the rounded exact mean of
that channel over all samples; as the overall average, the rounded mean of
the 8 channel averages; and as the max pressure point, the first index
attaining the maximum average together with that value. -/
theorem claim2_complete (st : SessionSt) (h : st.pressureData ≠ []) :
    (completeTest st).testCompleted = true ∧
    (completeTest st).averagePressures = calcAverages st.pressureData ∧
    (∀ i, i < 8 →
      (((calcAverages st.pressureData).getD i 0 : Nat) : ℤ) =
        round ((channelSum st.pressureData i : ℚ) / (st.pressureData.length : ℚ))) ∧
    ((completeTest st).averagePressure : ℤ) =
      round (((calcAverages st.pressureData).sum : ℚ) / (8 : ℚ)) ∧
    (completeTest st).maxPressurePoint =
      (idxOf (listMax (calcAverages st.pressureData)) (calcAverages st.pressureData),
        listMax (calcAverages st.pressureData)) := by
  have hlen : 0 < st.pressureData.length := List.length_pos.mpr h
  have hne0 : ¬(st.pressureData.length = 0) := Nat.pos_iff_ne_zero.mp hlen
  refine ⟨?_, ?_, ?_, ?_, ?_⟩
  · simp [completeTest, hlen]
  · simp [completeTest, calculateAverages, hlen, hne0]
  · intro i hi
    rw [calcAverages_getD st.pressureData i hi]
    exact jsRound_eq_round _ _ hlen
  · have hfield : (completeTest st).averagePressure =
        jsRound (calcAverages st.pressureData).sum (calcAverages st.pressureData).length := by
      simp [completeTest, calculateAverages, hlen, hne0]
    rw [hfield, calcAverages_length]
    have h8 := jsRound_eq_round (calcAverages st.pressureData).sum 8 (by norm_num)
    simpa using h8
  · simp [completeTest, calculateAverages, hlen, hne0]

/-- Witness for C2: the end-to-end example — three frames fed into a started
session, stopped early — yields averages [20,…,90], overall mean 55 and max
point (index 7, value 90). -/
theorem claim2_witness :
    ((completeTest c2Fed).testCompleted = true ∧
     (completeTest c2Fed).averagePressures = calcAverages c2Fed.pressureData ∧
     (∀ i, i < 8 →
       (((calcAverages c2Fed.pressureData).getD i 0 : Nat) : ℤ) =
         round ((channelSum c2Fed.pressureData i : ℚ) / (c2Fed.pressureData.length : ℚ))) ∧
     ((completeTest c2Fed).averagePressure : ℤ) =
       round (((calcAverages c2Fed.pressureData).sum : ℚ) / (8 : ℚ)) ∧
     (completeTest c2Fed).maxPressurePoint =
       (idxOf (listMax (calcAverages c2Fed.pressureData)) (calcAverages c2Fed.pressureData),
         listMax (calcAverages c2Fed.pressureData))) ∧
    c2Fed.pressureData = [[10, 20, 30, 40, 50, 60, 70, 80],
      [20, 30, 40, 50, 60, 70, 80, 90], [30, 40, 50, 60, 70, 80, 90, 100]] ∧
    (stopMeasurement c2Fed).averagePressures = [20, 30, 40, 50, 60, 70, 80, 90] ∧
    (stopMeasurement c2Fed).averagePressure = 55 ∧
    (stopMeasurement c2Fed).maxPressurePoint = (7, 90) ∧
    (stopMeasurement c2Fed).testCompleted = true :=
  ⟨claim2_complete c2Fed (by decide), by decide, by decide, by decide, by decide, by decide⟩

/-- C9: the reported max pressure point of a completed session is the first
(lowest) channel index attaining the maximum average, paired with that
maximum; every earlier index holds a strictly different (hence smaller)
value and no channel exceeds it. -/
theorem claim9_argmax_first (st : SessionSt) (h : st.pressureData ≠ []) :
    (completeTest st).maxPressurePoint =
      (idxOf (listMax (calcAverages st.pressureData)) (calcAverages st.pressureData),
        listMax (calcAverages st.pressureData)) ∧
    idxOf (listMax (calcAverages st.pressureData)) (calcAverages st.pressureData) <
      (calcAverages st.pressureData).length ∧
    (calcAverages st.pressureData).getD
        (idxOf (listMax (calcAverages st.pressureData)) (calcAverages st.pressureData)) 0 =
      listMax (calcAverages st.pressureData) ∧
    (∀ x ∈ calcAverages st.pressureData, x ≤ listMax (calcAverages st.pressureData)) ∧
    (∀ j, j < idxOf (listMax (calcAverages st.pressureData)) (calcAverages st.pressureData) →
      (calcAverages st.pressureData).getD j 0 ≠ listMax (calcAverages st.pressureData)) := by
  have hlen : 0 < st.pressureData.length := List.length_pos.mpr h
  have hne0 : ¬(st.pressureData.length = 0) := Nat.pos_iff_ne_zero.mp hlen
  have havg_ne : calcAverages st.pressureData ≠ [] := by
    intro hcontra
    have h8 := calcAverages_length st.pressureData
    rw [hcontra] at h8
    simp at h8
  obtain ⟨s1, s2, s3⟩ := idxOf_spec _ _ (listMax_mem _ havg_ne)
  exact ⟨by simp [completeTest, calculateAverages, hlen, hne0], s1, s2,
    fun x hx => listMax_ge _ x hx, s3⟩

/-- Witness for C9: averages [100,100,50,…] report max point index 0. -/
theorem claim9_witness :
    ((completeTest tieSession).maxPressurePoint =
      (idxOf (listMax (calcAverages tieSession.pressureData))
          (calcAverages tieSession.pressureData),
        listMax (calcAverages tieSession.pressureData)) ∧
     idxOf (listMax (calcAverages tieSession.pressureData))
         (calcAverages tieSession.pressureData) <
       (calcAverages tieSession.pressureData).length ∧
     (calcAverages tieSession.pressureData).getD
         (idxOf (listMax (calcAverages tieSession.pressureData))
           (calcAverages tieSession.pressureData)) 0 =
       listMax (calcAverages tieSession.pressureData) ∧
     (∀ x ∈ calcAverages tieSession.pressureData,
       x ≤ listMax (calcAverages tieSession.pressureData)) ∧
     (∀ j, j < idxOf (listMax (calcAverages tieSession.pressureData))
         (calcAverages tieSession.pressureData) →
       (calcAverages tieSession.pressureData).getD j 0 ≠
         listMax (calcAverages tieSession.pressureData))) ∧
    calcAverages tieSession.pressureData = [100, 100, 50, 50, 50, 50, 50, 50] ∧
    (completeTest tieSession).maxPressurePoint = (0, 100) :=
  ⟨claim9_argmax_first tieSession (by decide), by decide, by decide⟩

/-- C3 counterexample: a connect attempt on a real-device handle that fails
with a message containing one of the three recognized patterns does not fall
back to demo mode — `connect` re-throws a descriptive error, the stored
device stays the real handle, no observer event fires, and `isConnected`
afterwards reports false (Disconnected), contradicting the claim that any
connect error ends in Demo. -/
theorem claim3_counterexample :
    (connect initBLE realDev (.failConnect gattPat)).thrown = some errGattMsg ∧
    (connect initBLE realDev (.failConnect gattPat)).st.device = some realDev ∧
    isConnected (connect initBLE realDev (.failConnect gattPat)).st = false ∧
    (connect initBLE realDev (.failConnect gattPat)).events = [] := by
  decide

/-- C3 amended: a connect attempt on a real-device handle failing at any
GATT step with an error whose message contains none of the three recognized
patterns falls back to demo mode: nothing is thrown, the demo device is
installed, `isConnected` reports true, a subsequent start of data collection
uses the simulator, and the fallback is reported on the raw log channel. -/
theorem claim3_demo_fallback (st : BLEState) (dev : Device) (g : GattOutcome)
    (msg : List Char)
    (hgatt : dev.hasGatt = true) (hid : isDemoId dev.id = false)
    (hg : g = .failConnect msg ∨ g = .failService msg ∨
      g = .failCharacteristic msg ∨ g = .failNotifications msg)
    (h1 : containsSeq gattPat msg = false)
    (h2 : containsSeq svcPat msg = false)
    (h3 : containsSeq charPat msg = false) :
    (connect st dev g).thrown = none ∧
    (connect st dev g).st.device = some demoDevice ∧
    isConnected (connect st dev g).st = true ∧
    usesSimulator (connect st dev g).st = true ∧
    (bleStartDataCollection (connect st dev g).st).simActive = true ∧
    (bleStartDataCollection (connect st dev g).st).isCollecting = true ∧
    BLEEvent.raw demoFallbackMsg ∈ (connect st dev g).events := by
  have hcatch : ∀ st1 : BLEState, connectCatch st1 msg =
      { st := { st1 with device := some demoDevice },
        events := [.connChange true, .raw demoActMsg, .raw demoFallbackMsg],
        thrown := none } := by
    intro st1
    unfold connectCatch
    rw [h1, h2, h3]
    simp
  have hdemo : isDemoId demoDevice.id = true := by decide
  rcases hg with rfl | rfl | rfl | rfl <;>
  · unfold connect
    rw [hgatt, hid]
    simp only [Bool.not_false, Bool.and_true, if_true]
    rw [hcatch]
    refine ⟨rfl, rfl, ?_, ?_, ?_, rfl, by simp⟩
    · simp [isConnected, hdemo]
    · simp [usesSimulator, hdemo]
    · simp [bleStartDataCollection, usesSimulator, hdemo]

/-- Witness for C3 (amended): a plain timeout failure ends in demo mode. -/
theorem claim3_witness :
    (connect initBLE realDev (.failConnect (("Connection timeout").data))).thrown = none ∧
    (connect initBLE realDev (.failConnect (("Connection timeout").data))).st.device =
      some demoDevice ∧
    isConnected (connect initBLE realDev (.failConnect (("Connection timeout").data))).st =
      true ∧
    usesSimulator (connect initBLE realDev (.failConnect (("Connection timeout").data))).st =
      true ∧
    (bleStartDataCollection
      (connect initBLE realDev (.failConnect (("Connection timeout").data))).st).simActive =
      true ∧
    (bleStartDataCollection
      (connect initBLE realDev (.failConnect (("Connection timeout").data))).st).isCollecting =
      true ∧
    BLEEvent.raw demoFallbackMsg ∈
      (connect initBLE realDev (.failConnect (("Connection timeout").data))).events :=
  claim3_demo_fallback initBLE realDev _ (("Connection timeout").data)
    (by decide) (by decide) (Or.inl rfl) (by decide) (by decide) (by decide)

/-- C5: `completeTest` with zero accumulated samples only logs the warning:
it never marks the test completed and computes no averages — but it also
leaves the recording flag exactly as it was, so the session does not return
to Idle on the countdown-expiry path (see the C8 divergence theorem). -/
theorem claim5_empty_session (st : SessionSt) (h : st.pressureData = []) :
    (completeTest st).testCompleted = st.testCompleted ∧
    (completeTest st).averagePressures = st.averagePressures ∧
    (completeTest st).averagePressure = st.averagePressure ∧
    (completeTest st).maxPressurePoint = st.maxPressurePoint ∧
    (completeTest st).isRecording = st.isRecording ∧
    (completeTest st).timerActive = st.timerActive ∧
    (completeTest st).ble = st.ble ∧
    (completeTest st).consoleLog = st.consoleLog ++ [warningNoDataMsg] := by
  have hlen : ¬(0 < st.pressureData.length) := by
    rw [h]
    simp
  unfold completeTest
  rw [if_neg hlen]
  simp

/-- Witness for C5 on a freshly started (hence sample-free) session. -/
theorem claim5_witness :
    (completeTest (startMeasurement connectedIdle)).testCompleted =
      (startMeasurement connectedIdle).testCompleted ∧
    (completeTest (startMeasurement connectedIdle)).averagePressures =
      (startMeasurement connectedIdle).averagePressures ∧
    (completeTest (startMeasurement connectedIdle)).averagePressure =
      (startMeasurement connectedIdle).averagePressure ∧
    (completeTest (startMeasurement connectedIdle)).maxPressurePoint =
      (startMeasurement connectedIdle).maxPressurePoint ∧
    (completeTest (startMeasurement connectedIdle)).isRecording =
      (startMeasurement connectedIdle).isRecording ∧
    (completeTest (startMeasurement connectedIdle)).timerActive =
      (startMeasurement connectedIdle).timerActive ∧
    (completeTest (startMeasurement connectedIdle)).ble =
      (startMeasurement connectedIdle).ble ∧
    (completeTest (startMeasurement connectedIdle)).consoleLog =
      (startMeasurement connectedIdle).consoleLog ++ [warningNoDataMsg] :=
  claim5_empty_session (startMeasurement connectedIdle) (by decide)

/-- C6 counterexample: a user-cancelled device selection does not return the
demo device list — `scanForDevices` re-throws a cancellation error even
though the accept-all fallback would have succeeded. -/
theorem claim6_counterexample :
    scanForDevices true
        (.error (("User cancelled the requestDevice() chooser.").data)) (.ok realDev) =
      .error cancelMsg := by
  rfl

/-- C6 amended: when both requestDevice attempts fail and the primary error
does not contain the user-cancellation pattern — in particular on a platform
with no Web Bluetooth support at all — `scanForDevices` returns the sentinel
demo device list instead of failing the caller. -/
theorem claim6_demo_fallback (supported : Bool) (pmsg fmsg : List Char)
    (hcancel : containsSeq userCancelledPat pmsg = false) :
    scanForDevices supported (.error pmsg) (.error fmsg) = .ok mockDevices := by
  cases supported
  · rfl
  · unfold scanForDevices
    simp only [if_true]
    rw [hcancel]
    simp

/-- Witness for C6 (amended): no Bluetooth support at all still yields the
mock device list. -/
theorem claim6_witness :
    scanForDevices false (.error (("NotFoundError").data)) (.error (("NotFoundError").data)) =
      .ok mockDevices :=
  claim6_demo_fallback false _ _ (by decide)

/-- C7: every simulator frame is the fixed baseline perturbed channel-wise
by the bounded noise draws and re-clamped to [0, 255] (that is `simSample`),
an 8-vector of byte-ranged values, and its tagged-text wire encoding parses
back through the frame parser to exactly the same vector: parse after encode
is the identity on simulator output. -/
theorem claim7_sim_roundtrip (noise : List Int) (hlen : noise.length = 8)
    (_hbound : ∀ z ∈ noise, -20 ≤ z ∧ z < 20) :
    (simSample noise).length = 8 ∧
    (∀ v ∈ simSample noise, v ≤ 255) ∧
    parsePayload (simFrameText (simSample noise)) = some (simSample noise) :=
  ⟨simSample_length noise hlen, fun v hv => mem_simSample_le noise v hv,
    parse_simFrame _ (simSample_length noise hlen) (fun v hv => mem_simSample_le noise v hv)⟩

/-- Witness for C7 at one concrete draw of the noise vector. -/
theorem claim7_witness :
    (simSample [5, -20, 19, 0, 0, -1, 3, 7]).length = 8 ∧
    (∀ v ∈ simSample [5, -20, 19, 0, 0, -1, 3, 7], v ≤ 255) ∧
    parsePayload (simFrameText (simSample [5, -20, 19, 0, 0, -1, 3, 7])) =
      some (simSample [5, -20, 19, 0, 0, -1, 3, 7]) :=
  claim7_sim_roundtrip [5, -20, 19, 0, 0, -1, 3, 7] (by decide) (by decide)

/-- C8: the two zero-sample endings diverge.  Stopping early right after a
start clears the recording flag, the collection flag and the countdown
interval; letting the countdown expire leaves all three set (the interval
callback never clears them), so the recording status differs between the two
paths even though neither completes the test nor computes averages, and both
log the no-data warning. -/
theorem claim8_divergence :
    (stopMeasurement (startMeasurement connectedIdle)).isRecording = false ∧
    (stopMeasurement (startMeasurement connectedIdle)).ble.isCollecting = false ∧
    (stopMeasurement (startMeasurement connectedIdle)).timerActive = false ∧
    (timerTick^[20] (startMeasurement connectedIdle)).isRecording = true ∧
    (timerTick^[20] (startMeasurement connectedIdle)).ble.isCollecting = true ∧
    (timerTick^[20] (startMeasurement connectedIdle)).timerActive = true ∧
    (stopMeasurement (startMeasurement connectedIdle)).testCompleted = false ∧
    (timerTick^[20] (startMeasurement connectedIdle)).testCompleted = false ∧
    (stopMeasurement (startMeasurement connectedIdle)).averagePressures =
      List.replicate 8 0 ∧
    (timerTick^[20] (startMeasurement connectedIdle)).averagePressures =
      List.replicate 8 0 ∧
    warningNoDataMsg ∈ (stopMeasurement (startMeasurement connectedIdle)).consoleLog ∧
    warningNoDataMsg ∈ (timerTick^[20] (startMeasurement connectedIdle)).consoleLog := by
  decide

end FootPressure
